import Mathlib

/-
  Verification of the search aggregator in watchreadlisten (src/main.go).

  Go strings are byte sequences: `len s` is the byte count and `s[:l]` is a
  byte slice.  We embed them as `List Nat` of byte values.  The aggregator
  `Search` fans out to three clients (Rotten Tomatoes, Goodreads, Spotify)
  in three goroutines that write three disjoint slots (the named returns
  m, g, s) and join at `wg.Wait()`; since the units share no mutable state,
  the parallel run is observationally the sequential composition of the
  three unit bodies, which is what we embed.
-/

namespace WRL

/-- Go strings as byte sequences: `len` is the byte count. -/
abbrev GoStr : Type := List Nat

/-- truncate from src/main.go lines 73-78:
`if len(s) < l { return s }; return s[:l] + suf`.
The bound is taken as a `Nat` here; `truncateGo` below keeps the Go `int`
bound and models the panic of `s[:l]` on a negative bound. -/
def truncate (s suf : GoStr) (l : Nat) : GoStr :=
  if s.length < l then s else s.take l ++ suf

/-- The Go slice expression `s[:l]` with an `int` bound: in range it yields
the first `l` bytes, out of range (`l < 0` or `l > len s`) it panics,
modeled as `none`. -/
def goSlice (s : GoStr) (l : Int) : Option GoStr :=
  if 0 ≤ l ∧ l ≤ (s.length : Int) then some (s.take l.toNat) else none

/-- truncate with its Go `int` bound, the slice panic propagated as `none`:
`if len(s) < l { return s }; return s[:l] + suf`. -/
def truncateGo (s suf : GoStr) (l : Int) : Option GoStr :=
  if (s.length : Int) < l then some s
  else (goSlice s l).map (fun t => t ++ suf)

/-- Modelled from the spec: the spec reads the bound as a character count
("character count, not byte count, to avoid corrupting multi-byte text").
Here a string is given as its list of UTF-8 characters, each character a
byte sequence, and truncation keeps the first `l` characters. -/
def truncateByChars (cs sufCs : List GoStr) (l : Nat) : List GoStr :=
  if cs.length < l then cs else cs.take l ++ sufCs

/-- The byte sequence of the two-character string "éé": each char is the
two UTF-8 bytes 195, 169. -/
def eeBytes : GoStr := [195, 169, 195, 169]

/-- The string "éé" as its list of UTF-8 characters. -/
def eeChars : List GoStr := [[195, 169], [195, 169]]

/-- The byte sequence of the suffix "..." (src/main.go lines 91, 102, 114). -/
def dots : GoStr := [46, 46, 46]

/-- The suffix "..." as its list of UTF-8 characters. -/
def dotsChars : List GoStr := [[46], [46], [46]]

/-- C4 counterexample: on the two-character, four-byte string "éé" with
bound 3, `truncate` cuts at a byte boundary (splitting the second
character), while the character-count rule of the claim leaves the string
unchanged (2 characters < 3).  So the claim's "character count, not byte
count" reading is false of the code. -/
theorem truncate_char_count_cex :
    eeChars.flatten = eeBytes ∧ dotsChars.flatten = dots ∧
    truncate eeBytes dots 3 ≠ (truncateByChars eeChars dotsChars 3).flatten := by
  decide

/-- C4 (amended): truncate returns `s` unchanged when the byte length of
`s` is below `l`, and otherwise returns the first `l` bytes of `s`
concatenated with `suf` (byte count and byte slicing, not characters). -/
theorem truncate_spec_bytes (s suf : GoStr) (l : Nat) :
    (s.length < l → truncate s suf l = s) ∧
    (l ≤ s.length →
      truncate s suf l = s.take l ++ suf ∧
      (truncate s suf l).length = l + suf.length) := by
  refine ⟨fun h => by simp [truncate, h], fun h => ?_⟩
  rw [truncate, if_neg (by omega)]
  refine ⟨rfl, ?_⟩
  simp [List.length_take]
  omega

/-- C4 witness: the amended theorem applied at "abc", suffix "...",
bound 2. -/
theorem truncate_spec_bytes_witness :
    truncate [97, 98, 99] dots 2 = [97, 98] ++ dots ∧
    (truncate [97, 98, 99] dots 2).length = 2 + dots.length :=
  (truncate_spec_bytes [97, 98, 99] dots 2).2 (by decide)

/-- C5 counterexample: the one-byte title "a" with bound 1 is NOT returned
unchanged, the code appends the suffix (the guard is `len(s) < l`, so
equality falls into the truncating branch). -/
theorem truncate_boundary_cex : truncate [97] dots 1 ≠ [97] := by decide

/-- C5 (amended): a title whose length is exactly `l` gets the suffix
appended to the whole title: `truncate s suf l = s ++ suf`; a title is
returned unchanged only when its length is strictly below `l`. -/
theorem truncate_boundary_amended (s suf : GoStr) (l : Nat)
    (h : s.length = l) : truncate s suf l = s ++ suf := by
  subst h
  simp [truncate]

/-- C5 witness: the amended theorem applied at "ab", suffix "...",
bound 2. -/
theorem truncate_boundary_amended_witness :
    truncate [97, 98] dots 2 = [97, 98] ++ dots :=
  truncate_boundary_amended [97, 98] dots 2 (by decide)

/-- C6: truncation is idempotent: applying truncate twice with the same
suffix and bound yields the same result as applying it once. -/
theorem truncate_idempotent (s suf : GoStr) (l : Nat) :
    truncate (truncate s suf l) suf l = truncate s suf l := by
  by_cases h : s.length < l
  · simp [truncate, h]
  · have hl : l ≤ s.length := Nat.le_of_not_lt h
    have h1 : truncate s suf l = s.take l ++ suf := by
      rw [truncate, if_neg h]
    have hlen : (s.take l).length = l := by
      simp [List.length_take]
      omega
    rw [h1, truncate, if_neg (by simp [List.length_take]; omega)]
    rw [List.take_left' hlen]

/-- C10: with the Go `int` bound, truncate is total for every `l ≥ 0`: the
slice `s[:l]` is only evaluated on the branch where `l ≤ len s`, so it
never panics, and the result agrees with the `Nat`-bound version. -/
theorem truncate_total (s suf : GoStr) (l : Int) (h : 0 ≤ l) :
    truncateGo s suf l = some (truncate s suf l.toNat) := by
  by_cases hlt : (s.length : Int) < l
  · rw [truncateGo, if_pos hlt, truncate, if_pos (by omega)]
  · rw [truncateGo, if_neg hlt, goSlice, if_pos ⟨h, by omega⟩, truncate,
      if_neg (by omega)]
    rfl

/-- C10 witness: the theorem applied at "ab", suffix ".", bound 1. -/
theorem truncate_total_witness :
    truncateGo [97, 98] [46] 1 = some (truncate [97, 98] [46] (1 : Int).toNat) :=
  truncate_total [97, 98] [46] 1 (by decide)

/-
  Data model of the three clients' items.  The item structs live in the
  external libraries shawnps/rt, shawnps/gr, shawnps/sp, not in this
  repository; per the spec they carry a display title plus opaque
  pass-through fields the aggregator never inspects, which we collect in
  one `rest` field.
-/

/-- rt.Movie: display field `Title`, all other fields opaque. -/
structure Movie where
  Title : GoStr
  rest : GoStr
deriving DecidableEq

/-- A Goodreads best book: display field `Title`, other fields opaque. -/
structure Book where
  Title : GoStr
  rest : GoStr
deriving DecidableEq

/-- A Goodreads work: the code rewrites `w.BestBook.Title`
(src/main.go line 102), other fields opaque. -/
structure Work where
  BestBook : Book
  rest : GoStr
deriving DecidableEq

/-- The `Search` field of gr.GoodreadsResponse, holding `Works`. -/
structure GrSearch where
  Works : List Work
  rest : GoStr
deriving DecidableEq

/-- gr.GoodreadsResponse: the code touches `books.Search.Works`
(src/main.go line 101), everything else is opaque pass-through. -/
structure GoodreadsResponse where
  Search : GrSearch
  rest : GoStr
deriving DecidableEq

/-- sp album: display field `Name` (src/main.go line 114), rest opaque. -/
structure Album where
  Name : GoStr
  rest : GoStr
deriving DecidableEq

/-- sp.SearchAlbumsResponse: the code touches `albums.Albums`
(src/main.go line 113), everything else is opaque pass-through. -/
structure SearchAlbumsResponse where
  Albums : List Album
  rest : GoStr
deriving DecidableEq

/-- Outcome of one client call.  Modelled from the spec: the client
libraries are external collaborators with capability
`search(query) -> (items, error)`; a failing call yields an error and the
Go zero value of its payload, a succeeding call yields the items and a nil
error (`goPair` below renders this as the Go result pair). -/
abbrev ClientRes (α : Type) := Except GoStr α

/-- rt.RottenTomatoes as the one capability the aggregator uses. -/
structure RottenTomatoes where
  SearchMovies : GoStr → ClientRes (List Movie)

/-- gr.Goodreads as the one capability the aggregator uses. -/
structure Goodreads where
  SearchBooks : GoStr → ClientRes GoodreadsResponse

/-- sp.Spotify as the one capability the aggregator uses. -/
structure Spotify where
  SearchAlbums : GoStr → ClientRes SearchAlbumsResponse

/-- The Go result pair `(payload, err)` of a client call: the zero value
accompanies an error. -/
def goPair (zero : α) : ClientRes α → α × Option GoStr
  | .ok a => (a, none)
  | .error e => (zero, some e)

/-- Zero value of gr.GoodreadsResponse. -/
def grZero : GoodreadsResponse := ⟨⟨[], []⟩, []⟩

/-- Zero value of sp.SearchAlbumsResponse. -/
def spZero : SearchAlbumsResponse := ⟨[], []⟩

/-- Source tag "rt" of the rt failure record (src/main.go line 88). -/
def rtTag : GoStr := [114, 116]

/-- Source tag "gr" of the gr failure record (src/main.go line 99). -/
def grTag : GoStr := [103, 114]

/-- Source tag "sp" of the sp failure record (src/main.go line 111). -/
def spTag : GoStr := [115, 112]

/-- One failure record written to the observability sink: source tag and
error message (`fmt.Println("ERROR (xx): ", err.Error())`). -/
def errLog (tag : GoStr) : Option GoStr → List (GoStr × GoStr)
  | some e => [(tag, e)]
  | none => []

/-- Normalization of one movie (src/main.go line 91):
`mov.Title = truncate(mov.Title, "...", 60)`. -/
def normMovie (mov : Movie) : Movie :=
  { mov with Title := truncate mov.Title dots 60 }

/-- Normalization of one work (src/main.go line 102):
`w.BestBook.Title = truncate(w.BestBook.Title, "...", 60)`. -/
def normWork (w : Work) : Work :=
  { w with BestBook := { w.BestBook with Title := truncate w.BestBook.Title dots 60 } }

/-- Normalization of one album (src/main.go line 114):
`a.Name = truncate(a.Name, "...", 60)`. -/
def normAlbum (a : Album) : Album :=
  { a with Name := truncate a.Name dots 60 }

/-- The rt goroutine body (src/main.go lines 84-94): call the client, log
the error if any, append every returned movie with truncated title to the
slot `m`.  Returns the slot and the failure records of this unit. -/
def rtUnit (q : GoStr) (c : RottenTomatoes) :
    List Movie × List (GoStr × GoStr) :=
  let p := goPair [] (c.SearchMovies q)
  (p.1.map normMovie, errLog rtTag p.2)

/-- The gr goroutine body (src/main.go lines 95-106): call the client, log
the error if any, truncate every work's best-book title in place, assign
the response to the slot `g`. -/
def grUnit (q : GoStr) (c : Goodreads) :
    GoodreadsResponse × List (GoStr × GoStr) :=
  let p := goPair grZero (c.SearchBooks q)
  let books := p.1
  ({ books with Search := { books.Search with Works := books.Search.Works.map normWork } },
   errLog grTag p.2)

/-- The sp goroutine body (src/main.go lines 107-118): call the client,
log the error if any, truncate every album name in place, assign the
response to the slot `s`. -/
def spUnit (q : GoStr) (c : Spotify) :
    SearchAlbumsResponse × List (GoStr × GoStr) :=
  let p := goPair spZero (c.SearchAlbums q)
  let albums := p.1
  ({ albums with Albums := albums.Albums.map normAlbum }, errLog spTag p.2)

/-- What one Search call produces: the three slots m, g, s returned to the
caller, plus the failure records each unit emitted to the sink. -/
structure SearchOutput where
  m : List Movie
  g : GoodreadsResponse
  s : SearchAlbumsResponse
  rtLog : List (GoStr × GoStr)
  grLog : List (GoStr × GoStr)
  spLog : List (GoStr × GoStr)
deriving DecidableEq

/-- Search (src/main.go lines 81-121).  The three goroutines write the
disjoint named returns m, g, s and join at `wg.Wait()`; with no shared
mutable state between them, the concurrent run equals this sequential
composition of the three unit bodies. -/
def Search (q : GoStr) (rtClient : RottenTomatoes) (grClient : Goodreads)
    (spClient : Spotify) : SearchOutput :=
  let ru := rtUnit q rtClient
  let gu := grUnit q grClient
  let su := spUnit q spClient
  ⟨ru.1, gu.1, su.1, ru.2, gu.2, su.2⟩

/-- A client that fails on every query; payload type `α`, error "x". -/
def failWith (e : GoStr) : GoStr → ClientRes α := fun _ => .error e

/-- An rt client failing on every query with message "x" (byte 120). -/
def rtFailC : RottenTomatoes := ⟨failWith [120]⟩

/-- A gr client failing on every query with message "y" (byte 121). -/
def grFailC : Goodreads := ⟨failWith [121]⟩

/-- An sp client failing on every query with message "z" (byte 122). -/
def spFailC : Spotify := ⟨failWith [122]⟩

/-- Two concrete movies, a long-titled book and an album used by the
witnesses below. -/
def movA : Movie := ⟨[97], [1]⟩

/-- Second concrete movie, distinct title and opaque payload. -/
def movB : Movie := ⟨List.replicate 70 98, [2]⟩

/-- A concrete Goodreads response with one work. -/
def booksA : GoodreadsResponse := ⟨⟨[⟨⟨[99], [3]⟩, [4]⟩], [5]⟩, [6]⟩

/-- A concrete Spotify response with one album. -/
def albumsA : SearchAlbumsResponse := ⟨[⟨[100], [7]⟩], [8]⟩

/-- An rt client succeeding with [movA, movB] on every query. -/
def rtOkC : RottenTomatoes := ⟨fun _ => .ok [movA, movB]⟩

/-- A gr client succeeding with booksA on every query. -/
def grOkC : Goodreads := ⟨fun _ => .ok booksA⟩

/-- An sp client succeeding with albumsA on every query. -/
def spOkC : Spotify := ⟨fun _ => .ok albumsA⟩

/-- The query "q" used by the witnesses. -/
def q0 : GoStr := [113]

/-- C1: the bundle returned by Search always has exactly one slot per
configured source, each slot produced by that source's own unit; a failing
source's slot holds the empty item collection, never a missing slot and
never an abort (Search is a total function into the three-slot bundle). -/
theorem search_bundle_slots (q : GoStr) (rtC : RottenTomatoes)
    (grC : Goodreads) (spC : Spotify) :
    (Search q rtC grC spC).m = (rtUnit q rtC).1 ∧
    (Search q rtC grC spC).g = (grUnit q grC).1 ∧
    (Search q rtC grC spC).s = (spUnit q spC).1 ∧
    (∀ e, rtC.SearchMovies q = .error e → (Search q rtC grC spC).m = []) ∧
    (∀ e, grC.SearchBooks q = .error e →
      (Search q rtC grC spC).g.Search.Works = []) ∧
    (∀ e, spC.SearchAlbums q = .error e →
      (Search q rtC grC spC).s.Albums = []) := by
  refine ⟨rfl, rfl, rfl, ?_, ?_, ?_⟩
  · intro e h
    simp [Search, rtUnit, goPair, h]
  · intro e h
    simp [Search, grUnit, goPair, grZero, h]
  · intro e h
    simp [Search, spUnit, goPair, spZero, h]

/-- C1 witness: with all three clients failing, all three slots are
present and empty. -/
theorem search_bundle_slots_witness :
    (Search q0 rtFailC grFailC spFailC).m = [] ∧
    (Search q0 rtFailC grFailC spFailC).g.Search.Works = [] ∧
    (Search q0 rtFailC grFailC spFailC).s.Albums = [] := by
  have h := search_bundle_slots q0 rtFailC grFailC spFailC
  exact ⟨h.2.2.2.1 [120] rfl, h.2.2.2.2.1 [121] rfl, h.2.2.2.2.2 [122] rfl⟩

/-- C2: a failing source's own slot becomes the empty collection and one
failure record (source tag, error message) is emitted; the failure never
propagates: every slot is unchanged under any change of the other two
clients' outcomes. -/
theorem search_failure_isolated (q : GoStr) (rtC rtC' : RottenTomatoes)
    (grC grC' : Goodreads) (spC spC' : Spotify) :
    (∀ e, rtC.SearchMovies q = .error e →
      (Search q rtC grC spC).m = [] ∧
      (Search q rtC grC spC).rtLog = [(rtTag, e)]) ∧
    (∀ e, grC.SearchBooks q = .error e →
      (Search q rtC grC spC).g.Search.Works = [] ∧
      (Search q rtC grC spC).grLog = [(grTag, e)]) ∧
    (∀ e, spC.SearchAlbums q = .error e →
      (Search q rtC grC spC).s.Albums = [] ∧
      (Search q rtC grC spC).spLog = [(spTag, e)]) ∧
    (Search q rtC grC spC).m = (Search q rtC grC' spC').m ∧
    (Search q rtC grC spC).g = (Search q rtC' grC spC').g ∧
    (Search q rtC grC spC).s = (Search q rtC' grC' spC).s := by
  refine ⟨?_, ?_, ?_, rfl, rfl, rfl⟩
  · intro e h
    constructor <;> simp [Search, rtUnit, goPair, errLog, h]
  · intro e h
    constructor <;> simp [Search, grUnit, goPair, errLog, grZero, h]
  · intro e h
    constructor <;> simp [Search, spUnit, goPair, errLog, spZero, h]

/-- C2 witness: a failing rt client yields an empty movie slot and one rt
failure record, while the book slot is the same as with entirely different
rt and sp clients. -/
theorem search_failure_isolated_witness :
    ((Search q0 rtFailC grOkC spOkC).m = [] ∧
     (Search q0 rtFailC grOkC spOkC).rtLog = [(rtTag, [120])]) ∧
    (Search q0 rtFailC grOkC spOkC).g = (Search q0 rtOkC grOkC spFailC).g := by
  have h := search_failure_isolated q0 rtFailC rtOkC grOkC grFailC spOkC spFailC
  exact ⟨h.1 [120] rfl, h.2.2.2.2.1⟩

/-- C3: even when all three source clients fail, the Search call itself
returns normally (it has no error result): the bundle comes back with
three empty slots and the three failure records. -/
theorem search_returns_on_total_failure (q : GoStr) (rtC : RottenTomatoes)
    (grC : Goodreads) (spC : Spotify) (e1 e2 e3 : GoStr)
    (h1 : rtC.SearchMovies q = .error e1)
    (h2 : grC.SearchBooks q = .error e2)
    (h3 : spC.SearchAlbums q = .error e3) :
    Search q rtC grC spC =
      ⟨[], grZero, spZero, [(rtTag, e1)], [(grTag, e2)], [(spTag, e3)]⟩ := by
  simp [Search, rtUnit, grUnit, spUnit, goPair, errLog, h1, h2, h3,
    grZero, spZero]

/-- C3 witness: the theorem applied to three concrete failing clients. -/
theorem search_returns_on_total_failure_witness :
    Search q0 rtFailC grFailC spFailC =
      ⟨[], grZero, spZero, [(rtTag, [120])], [(grTag, [121])],
        [(spTag, [122])]⟩ :=
  search_returns_on_total_failure q0 rtFailC grFailC spFailC
    [120] [121] [122] rfl rfl rfl

/-- C7: for a source whose client succeeds, the i-th item of its slot is
the normalization of the i-th item the client returned, for every i: the
order is exactly the client's order, with no re-sorting and no
cross-source interleaving. -/
theorem search_preserves_order (q : GoStr) (rtC : RottenTomatoes)
    (grC : Goodreads) (spC : Spotify) :
    (∀ movies, rtC.SearchMovies q = .ok movies →
      ∀ i : Nat, (Search q rtC grC spC).m[i]? =
        (movies[i]?).map normMovie) ∧
    (∀ books, grC.SearchBooks q = .ok books →
      ∀ i : Nat, (Search q rtC grC spC).g.Search.Works[i]? =
        (books.Search.Works[i]?).map normWork) ∧
    (∀ albums, spC.SearchAlbums q = .ok albums →
      ∀ i : Nat, (Search q rtC grC spC).s.Albums[i]? =
        (albums.Albums[i]?).map normAlbum) := by
  refine ⟨?_, ?_, ?_⟩
  · intro movies h i
    simp [Search, rtUnit, goPair, h]
  · intro books h i
    simp [Search, grUnit, goPair, h]
  · intro albums h i
    simp [Search, spUnit, goPair, h]

/-- C7 witness: with an rt client returning two movies, slot position 0
holds the normalization of the client's item 0. -/
theorem search_preserves_order_witness :
    (Search q0 rtOkC grOkC spOkC).m[0]? = ([movA, movB][0]?).map normMovie :=
  (search_preserves_order q0 rtOkC grOkC spOkC).1 [movA, movB] rfl 0

/-- C8: for a source whose client succeeds, every field of every returned
item other than its display title — and every field of the response
around the items — reaches the bundle unchanged; only the title field
goes through truncation. -/
theorem search_frame_non_title (q : GoStr) (rtC : RottenTomatoes)
    (grC : Goodreads) (spC : Spotify) :
    (∀ movies, rtC.SearchMovies q = .ok movies →
      (Search q rtC grC spC).m.map Movie.rest = movies.map Movie.rest) ∧
    (∀ books, grC.SearchBooks q = .ok books →
      (Search q rtC grC spC).g.rest = books.rest ∧
      (Search q rtC grC spC).g.Search.rest = books.Search.rest ∧
      (Search q rtC grC spC).g.Search.Works.map Work.rest =
        books.Search.Works.map Work.rest ∧
      (Search q rtC grC spC).g.Search.Works.map (fun w => w.BestBook.rest) =
        books.Search.Works.map (fun w => w.BestBook.rest)) ∧
    (∀ albums, spC.SearchAlbums q = .ok albums →
      (Search q rtC grC spC).s.rest = albums.rest ∧
      (Search q rtC grC spC).s.Albums.map Album.rest =
        albums.Albums.map Album.rest) := by
  refine ⟨?_, ?_, ?_⟩
  · intro movies h
    simp [Search, rtUnit, goPair, h, normMovie, List.map_map, Function.comp]
  · intro books h
    simp [Search, grUnit, goPair, h, normWork, List.map_map, Function.comp]
  · intro albums h
    simp [Search, spUnit, goPair, h, normAlbum, List.map_map, Function.comp]

/-- C8 witness: the non-title fields of two concrete movies survive the
aggregation unchanged. -/
theorem search_frame_non_title_witness :
    (Search q0 rtOkC grOkC spOkC).m.map Movie.rest =
      [movA, movB].map Movie.rest :=
  (search_frame_non_title q0 rtOkC grOkC spOkC).1 [movA, movB] rfl

/-- C9: for a source whose client succeeds, every item's display title in
the bundle equals one application of truncate (suffix "...", bound 60) to
the client's original title: normalization is applied exactly once, never
skipped; applying it twice is extensionally the same by idempotence
(truncate_idempotent), so "once" is the full observable content. -/
theorem search_truncates_once (q : GoStr) (rtC : RottenTomatoes)
    (grC : Goodreads) (spC : Spotify) :
    (∀ movies, rtC.SearchMovies q = .ok movies →
      (Search q rtC grC spC).m.map Movie.Title =
        movies.map (fun mov => truncate mov.Title dots 60)) ∧
    (∀ books, grC.SearchBooks q = .ok books →
      (Search q rtC grC spC).g.Search.Works.map (fun w => w.BestBook.Title) =
        books.Search.Works.map (fun w => truncate w.BestBook.Title dots 60)) ∧
    (∀ albums, spC.SearchAlbums q = .ok albums →
      (Search q rtC grC spC).s.Albums.map Album.Name =
        albums.Albums.map (fun a => truncate a.Name dots 60)) := by
  refine ⟨?_, ?_, ?_⟩
  · intro movies h
    simp [Search, rtUnit, goPair, h, normMovie, List.map_map, Function.comp]
  · intro books h
    simp [Search, grUnit, goPair, h, normWork, List.map_map, Function.comp]
  · intro albums h
    simp [Search, spUnit, goPair, h, normAlbum, List.map_map, Function.comp]

/-- C9 witness: the bundle titles of two concrete movies (one short, one
of length 70, so actually truncated) equal one truncate application. -/
theorem search_truncates_once_witness :
    (Search q0 rtOkC grOkC spOkC).m.map Movie.Title =
      [movA, movB].map (fun mov => truncate mov.Title dots 60) :=
  (search_truncates_once q0 rtOkC grOkC spOkC).1 [movA, movB] rfl

end WRL
